import Mathlib

/-
  Shallow embedding of `src/server/api/middleware/authCheck.js` from the
  Inventory-Management-App repository.

  The middleware file is the authority for all definitions below.  The
  database procedures (`findLoginSession`, `findCSRFSession`,
  `deleteLoginSession`, `deleteCSRFSession`, `getClient`, `newSession`),
  the JWT library and the system clock live outside the middleware file,
  so they are abstracted into an `Env` record of functions: a call that
  throws is modelled as `Except.error ()`, a call that resolves as
  `Except.ok v`.  The middleware itself is translated branch for branch;
  its observable side effects (store reads, immediate session deletions,
  cookie clears, HTTP responses, scheduled deferred deletions) are
  collected in explicit effect logs.
-/

namespace InventoryAuth

/-- A login session row, as destructured by `authCheckHelper`
(`clientId`, `isCanceled`, `expiresAt`). Times are in seconds, matching
`currentTimeSeconds()`. -/
structure LoginSession where
  clientId : String
  isCanceled : Bool
  expiresAt : Nat
deriving Repr, DecidableEq

/-- A CSRF session row, as destructured by `authCheckHelper`
(`csrfSessionUUID`, `clientId`, `expiresAt`). -/
structure CSRFSession where
  csrfSessionUUID : String
  clientId : String
  expiresAt : Nat
deriving Repr, DecidableEq

/-- A client row; only `clientId` is consumed by the middleware. -/
structure Client where
  clientId : String
deriving Repr, DecidableEq

/-- The external world of the middleware: JWT verification, the two
session stores, the client table, session creation and the clock.
`Except.error ()` models a thrown `StoreError`; for `verifyJWT`, `none`
models `jwt.verify` throwing and `some p` a decoded payload whose
`loginSessionUUID` claim is `p` (the empty string standing for a missing
or empty claim, which is falsy in JS exactly like an absent one). -/
structure Env where
  verifyJWT : String → Option String
  findLoginSession : String → Except Unit (Option LoginSession)
  findCSRFSession : String → Except Unit (Option CSRFSession)
  deleteLoginSession : String → Except Unit Unit
  deleteCSRFSession : String → Except Unit Unit
  getClient : String → Except Unit (Option Client)
  newSession : String → Except Unit (String × String)
  now : Nat

/-- An inbound request: its path, the two cookies and the header read by
the middleware. `none` models an absent cookie/header. -/
structure Request where
  path : String
  authJWTCookie : Option String
  authCSRFCookie : Option String
  authCSRFHeader : Option String
deriving Repr, DecidableEq

/-- The options object taken by `authCheckHelper`. -/
structure AuthOptions where
  sendResOnFail : Bool
  deleteCookiesOnFail : Bool
deriving Repr, DecidableEq

/-- JavaScript truthiness of an optional string value: absent
(`undefined`) and the empty string are falsy, every other string truthy.
The middleware tests all credentials with bare truthiness checks. -/
def jsTruthy : Option String → Bool
  | none => false
  | some s => s != ""

/-- Translation of `userSuppliedAnyAuth`: true when at least one of the
JWT cookie, the CSRF cookie and the CSRF header is (JS-)truthy. -/
def userSuppliedAnyAuth (req : Request) : Bool :=
  jsTruthy req.authJWTCookie || jsTruthy req.authCSRFCookie || jsTruthy req.authCSRFHeader

/-- Outcome of `authCheckHelper`: either the success object
`(clientId, loginSessionUUID, csrfSessionUUID)` or the failure decided on
the failing path, carrying the HTTP status, `errorType` tag and
`errorMessage` handed to `onAuthFailure`. -/
inductive AuthResult where
  | success (clientId loginSessionUUID csrfSessionUUID : String)
  | failure (status : Nat) (errorType errorMessage : String)
deriving Repr, DecidableEq

/-- Whether an `AuthResult` is the success object (i.e. the JS function
returned an object rather than `false`). -/
def AuthResult.isSuccess : AuthResult → Bool
  | .success _ _ _ => true
  | .failure _ _ _ => false

/-- Whether an `Except` call resolved (did not throw). -/
def exceptOk {α β : Type} : Except α β → Bool
  | .ok _ => true
  | .error _ => false

/-- Observable side effects of one `authCheckHelper` run: the keys passed
to `findLoginSession` / `findCSRFSession`, the immediate delete attempts
made inside `onAuthFailure` (paired with whether the store call resolved),
the cookies cleared, and the responses sent, each in program order. -/
structure Effects where
  loginFinds : List String
  csrfFinds : List String
  loginDeletes : List (String × Bool)
  csrfDeletes : List (String × Bool)
  clearedCookies : List String
  responses : List (Nat × String × String)
deriving Repr, DecidableEq

/-- The empty effect log. -/
def noEffects : Effects := ⟨[], [], [], [], [], []⟩

/-- Translation of the inner `onAuthFailure` helper: optionally clear
both cookies, delete the resolved login session if any (its `StoreError`
caught and only logged), likewise the resolved CSRF session, optionally
send the failure response, and return `false` with the decided failure
recorded. `prior` carries the effects accumulated before the failure. -/
def onAuthFailure (env : Env) (opts : AuthOptions)
    (loginSessionUUID csrfSessionUUID : Option String) (prior : Effects)
    (status : Nat) (errorType errorMessage : String) : AuthResult × Effects :=
  let clears := if opts.deleteCookiesOnFail then ["auth_jwt", "auth_csrf"] else []
  let lds := if jsTruthy loginSessionUUID then
      [(loginSessionUUID.getD "", exceptOk (env.deleteLoginSession (loginSessionUUID.getD "")))]
    else []
  let cds := if jsTruthy csrfSessionUUID then
      [(csrfSessionUUID.getD "", exceptOk (env.deleteCSRFSession (csrfSessionUUID.getD "")))]
    else []
  let resp := if opts.sendResOnFail then [(status, errorType, errorMessage)] else []
  (.failure status errorType errorMessage,
   { loginFinds := prior.loginFinds
     csrfFinds := prior.csrfFinds
     loginDeletes := prior.loginDeletes ++ lds
     csrfDeletes := prior.csrfDeletes ++ cds
     clearedCookies := prior.clearedCookies ++ clears
     responses := prior.responses ++ resp })

/-- The list of missing credential names, in the order the JS code pushes
them onto `errors`. -/
def missingAuthParts (req : Request) : List String :=
  (if jsTruthy req.authJWTCookie then [] else ["AUTH_JWT cookie"]) ++
  (if jsTruthy req.authCSRFCookie then [] else ["AUTH_CSRF cookie"]) ++
  (if jsTruthy req.authCSRFHeader then [] else ["AUTH_CSRF header"])

/-- The `incompleteAuth` error message built from the missing parts. -/
def incompleteAuthMessage (errors : List String) : String :=
  let s := if errors.length == 1 then "" else "s"
  "Incomplete authentication. Missing " ++ toString errors.length ++ " form" ++ s ++
    " of authentication: " ++ String.intercalate ", " errors

/-- Translation of `authCheckHelper`, branch for branch: the
`userSuppliedAnyAuth` early return, then token decoding (before the
completeness check, as in the source), the completeness check, the login
session lookup with the expiry-then-cancellation checks, and the CSRF
session lookup keyed by the header with the expiry and owner checks. -/
def authCheckHelper (env : Env) (req : Request) (opts : AuthOptions) : AuthResult × Effects :=
  if userSuppliedAnyAuth req = false then
    (.failure 401 "notLoggedIn" "You must be logged in to view this data",
     { noEffects with
        responses := if opts.sendResOnFail then
            [(401, "notLoggedIn", "You must be logged in to view this data")] else [] })
  else
    match (if jsTruthy req.authJWTCookie then
             match env.verifyJWT (req.authJWTCookie.getD "") with
             | none => Except.error ()
             | some p => Except.ok (some p)
           else (Except.ok none : Except Unit (Option String))) with
    | .error _ =>
        onAuthFailure env opts none none noEffects 401 "verification"
          "AUTH_JWT cookie could not be verified"
    | .ok loginSessionUUID =>
      if (jsTruthy req.authJWTCookie && jsTruthy req.authCSRFCookie &&
          jsTruthy req.authCSRFHeader) = false then
        onAuthFailure env opts loginSessionUUID none noEffects 401 "incompleteAuth"
          (incompleteAuthMessage (missingAuthParts req))
      else
        let lsKey := loginSessionUUID.getD ""
        let eff1 : Effects := { noEffects with loginFinds := [lsKey] }
        match env.findLoginSession lsKey with
        | .error _ =>
            onAuthFailure env opts loginSessionUUID none eff1 500 "database"
              "Error querying database for Login Session"
        | .ok none =>
            onAuthFailure env opts loginSessionUUID none eff1 401 "loginSessionNotFound"
              "Could not find Login Session"
        | .ok (some loginSession) =>
          if loginSession.expiresAt ≤ env.now then
            onAuthFailure env opts loginSessionUUID none eff1 401 "sessionExpired"
              "Login Session expired"
          else if loginSession.isCanceled then
            onAuthFailure env opts loginSessionUUID none eff1 401 "sessionCanceled"
              "Session was manually canceled"
          else
            let csrfKey := req.authCSRFHeader.getD ""
            let eff2 : Effects := { eff1 with csrfFinds := [csrfKey] }
            match env.findCSRFSession csrfKey with
            | .error _ =>
                onAuthFailure env opts loginSessionUUID none eff2 500 "database"
                  "Error querying database for CSRF Session"
            | .ok none =>
                onAuthFailure env opts loginSessionUUID none eff2 401 "csrfSessionNotFound"
                  "Could not find CSRF Session"
            | .ok (some csrfSession) =>
              if csrfSession.expiresAt ≤ env.now then
                onAuthFailure env opts loginSessionUUID (some csrfSession.csrfSessionUUID)
                  eff2 401 "sessionExpired" "CSRF Session expired"
              else if (csrfSession.clientId == loginSession.clientId) = false then
                onAuthFailure env opts loginSessionUUID (some csrfSession.csrfSessionUUID)
                  eff2 401 "verification"
                  "CSRF_AUTH header being used is not for the client that you claim to be"
              else
                (.success loginSession.clientId lsKey csrfSession.csrfSessionUUID, eff2)

/-- The fixed allowlist of paths exempt from the auth middleware. -/
def exemptEndpoints : List String :=
  ["/", "/auth/register", "/auth/loggedInCheck", "/auth/login", "/auth/logout"]

/-- A deferred deletion scheduled with `setTimeout`: the delay in
milliseconds and the session UUID the timer will try to delete. -/
structure DeferredDeletion where
  delayMilliseconds : Nat
  sessionUUID : String
deriving Repr, DecidableEq

/-- Translation of `deleteLoginSessionSoon`: schedules one deletion of
the given login session UUID after 15 seconds. -/
def deleteLoginSessionSoon (loginSessionUUID : String) : DeferredDeletion :=
  ⟨15 * 1000, loginSessionUUID⟩

/-- Translation of `deleteCSRFSessionSoon`: schedules one deletion of
the given CSRF session UUID after 15 seconds. -/
def deleteCSRFSessionSoon (csrfSessionUUID : String) : DeferredDeletion :=
  ⟨15 * 1000, csrfSessionUUID⟩

/-- What the timer body of `deleteLoginSessionSoon` does when it fires:
the list of keys passed to `deleteLoginSession` together with what the
callback lets escape to the runtime (a thrown store error is caught and
only logged, so the callback always resolves). -/
def fireDeferredLoginDeletion (env : Env) (d : DeferredDeletion) :
    List String × Except Unit Unit :=
  ([d.sessionUUID],
   match env.deleteLoginSession d.sessionUUID with
   | .ok _ => .ok ()
   | .error _ => .ok ())

/-- What the timer body of `deleteCSRFSessionSoon` does when it fires. -/
def fireDeferredCSRFDeletion (env : Env) (d : DeferredDeletion) :
    List String × Except Unit Unit :=
  ([d.sessionUUID],
   match env.deleteCSRFSession d.sessionUUID with
   | .ok _ => .ok ()
   | .error _ => .ok ())

/-- Translation of `createSessionAndSetCookies`: creates a session pair
via `newSession` and reports the cookies it sets, or `false` on error. -/
def createSessionAndSetCookies (env : Env) (client : Client) :
    Bool × List (String × String) :=
  match env.newSession client.clientId with
  | .error _ => (false, [])
  | .ok (token, csrfSessionUUID) =>
      (true, [("auth_jwt", token), ("auth_csrf", csrfSessionUUID)])

/-- Observable effects of one run of the `authCheck` middleware: whether
and with which options the validator ran (and its effect log), the
deferred deletions scheduled, the cookies cleared and set by the gate
itself, the response the gate sent, the `req.auth` attachment, and
whether `next()` was called. -/
structure GateEffects where
  validatorRun : Option (AuthOptions × Effects)
  scheduledLoginDeletes : List DeferredDeletion
  scheduledCSRFDeletes : List DeferredDeletion
  clearedCookies : List String
  setCookies : List (String × String)
  response : Option (Nat × String × String)
  reqAuth : Option (String × String)
  nextCalled : Bool
deriving Repr, DecidableEq

/-- The gate effects of an exempt request: `next()` and nothing else. -/
def passThroughGate : GateEffects := ⟨none, [], [], [], [], none, none, true⟩

/-- The gate effects shared by every post-validation branch of
`authCheck`: deferred deletions scheduled for both old sessions and both
cookies cleared (in source order `auth_csrf`, `auth_jwt`). -/
def gateAfterSuccessBase (opts : AuthOptions) (eff : Effects)
    (loginSessionUUID csrfSessionUUID : String) : GateEffects :=
  { validatorRun := some (opts, eff)
    scheduledLoginDeletes := [deleteLoginSessionSoon loginSessionUUID]
    scheduledCSRFDeletes := [deleteCSRFSessionSoon csrfSessionUUID]
    clearedCookies := ["auth_csrf", "auth_jwt"]
    setCookies := []
    response := none
    reqAuth := none
    nextCalled := false }

/-- Translation of the default-export `authCheck` middleware: exempt
paths pass straight to `next()`; otherwise `authCheckHelper` runs with
`sendResOnFail` and `deleteCookiesOnFail` both true; on its success the
old sessions are scheduled for deferred deletion, the cookies cleared,
the client looked up (500 `noUser` when absent, 500 `database` when the
lookup throws), a fresh session minted (500 `database` when that fails),
the new cookies set, `req.auth` attached and `next()` called. -/
def authCheck (env : Env) (req : Request) : GateEffects :=
  if exemptEndpoints.contains req.path then passThroughGate
  else
    match authCheckHelper env req ⟨true, true⟩ with
    | (.failure _ _ _, eff) =>
        ⟨some (⟨true, true⟩, eff), [], [], [], [], none, none, false⟩
    | (.success clientId loginSessionUUID csrfSessionUUID, eff) =>
      let base := gateAfterSuccessBase ⟨true, true⟩ eff loginSessionUUID csrfSessionUUID
      match env.getClient clientId with
      | .error _ =>
          { base with response := some (500, "database",
              "Error querying database for user associated with the clientId tied to the session being updated") }
      | .ok none =>
          { base with response := some (500, "noUser",
              "Could not find user associated with the clientId tied to the session being updated") }
      | .ok (some user) =>
        match createSessionAndSetCookies env user with
        | (false, _) =>
            { base with response := some (500, "database",
                "Error inserting new session into database upon session refresh") }
        | (true, cookies) =>
            { base with
                setCookies := cookies
                reqAuth := some (clientId, loginSessionUUID)
                nextCalled := true }

/-- Modelled from the spec: the section-3 invariant condition, written
from the spec text alone — the token verifies and names a LoginSession
that exists, is unexpired and uncanceled, and the CSRF header value names
a CSRFSession that exists, is unexpired and whose owner equals the
LoginSession's owner. Used only to compare the spec wording against
`authCheckHelper`. -/
def specAuthenticated (env : Env) (req : Request) : Bool :=
  match req.authJWTCookie with
  | none => false
  | some t =>
    if t == "" then false
    else
      match env.verifyJWT t with
      | none => false
      | some uuid =>
        match env.findLoginSession uuid with
        | .error _ => false
        | .ok none => false
        | .ok (some ls) =>
          decide (env.now < ls.expiresAt) && !ls.isCanceled &&
          (match req.authCSRFHeader with
           | none => false
           | some h =>
             if h == "" then false
             else
               match env.findCSRFSession h with
               | .error _ => false
               | .ok none => false
               | .ok (some cs) =>
                 decide (env.now < cs.expiresAt) && (cs.clientId == ls.clientId))

/-- Number of credential parts (token cookie, CSRF cookie, CSRF header)
the request presents, counting by JS truthiness like the middleware. -/
def presentedPartsCount (req : Request) : Nat :=
  (if jsTruthy req.authJWTCookie then 1 else 0) +
  (if jsTruthy req.authCSRFCookie then 1 else 0) +
  (if jsTruthy req.authCSRFHeader then 1 else 0)

/-- The login session UUID resolvable from the request's token: the
decoded claim when the token cookie is truthy and verifies, else none. -/
def resolvedLoginSessionUUID (env : Env) (req : Request) : Option String :=
  if jsTruthy req.authJWTCookie then env.verifyJWT (req.authJWTCookie.getD "") else none

deriving instance DecidableEq for Except

/-- Concrete login session used by the witness environments. -/
def sampleLoginSession : LoginSession := ⟨"u1", false, 100⟩

/-- Concrete CSRF session used by the witness environments. -/
def sampleCSRFSession : CSRFSession := ⟨"cs1", "u1", 100⟩

/-- Concrete environment: token "tok" decodes to "ls1", the two stores
hold `sampleLoginSession` and `sampleCSRFSession`, deletes succeed, the
clock reads 50. -/
def env0 : Env :=
  { verifyJWT := fun t => if t == "tok" then some "ls1" else none
    findLoginSession := fun k => if k == "ls1" then .ok (some sampleLoginSession) else .ok none
    findCSRFSession := fun k => if k == "cs1" then .ok (some sampleCSRFSession) else .ok none
    deleteLoginSession := fun _ => .ok ()
    deleteCSRFSession := fun _ => .ok ()
    getClient := fun c => if c == "u1" then .ok (some ⟨"u1"⟩) else .ok none
    newSession := fun _ => .ok ("tok2", "cs2")
    now := 50 }

/-- A request carrying all three credential parts consistently. -/
def reqFull : Request := ⟨"/api/x", some "tok", some "cs1", some "cs1"⟩

/-- Like `reqFull` but with the CSRF cookie absent. -/
def reqNoCsrfCookie : Request := ⟨"/api/x", some "tok", none, some "cs1"⟩

/-- A request with only a malformed token. -/
def reqBadToken : Request := ⟨"/api/x", some "garbage", none, none⟩

/-- A request presenting none of the three credential parts. -/
def reqNone : Request := ⟨"/api/x", none, none, none⟩

/-- Environment whose login session expires exactly at the current clock
reading (now = expiresAt = 50) and is not canceled. -/
def envExpiredNow : Env :=
  { env0 with findLoginSession := fun k =>
      if k == "ls1" then .ok (some ⟨"u1", false, 50⟩) else .ok none }

/-- Environment whose CSRF session belongs to a different client ("u2")
than the login session's "u1", both sessions valid and unexpired. -/
def envWrongOwner : Env :=
  { env0 with findCSRFSession := fun k =>
      if k == "cs1" then .ok (some ⟨"cs1", "u2", 100⟩) else .ok none }

/-- An exempt-path request carrying credentials (which must be ignored). -/
def reqExempt : Request := ⟨"/auth/login", some "tok", some "cs1", some "cs1"⟩

/-- Environment in which the client lookup finds no user row. -/
def envNoUser : Env := { env0 with getClient := fun _ => .ok none }

/-- Environment in which the client lookup throws. -/
def envClientErr : Env := { env0 with getClient := fun _ => .error () }

lemma jsTruthy_true_iff (o : Option String) : jsTruthy o = true ↔ ∃ s, o = some s ∧ s ≠ "" := by
  cases o <;> simp [jsTruthy]

lemma jsTruthy_false_iff (o : Option String) : jsTruthy o = false ↔ o = none ∨ o = some "" := by
  cases o <;> simp [jsTruthy]

/-- C7: a request presenting none of the three credential parts gets the
terminal failure notLoggedIn (401) and nothing else happens: no store
read, no deletion, no cookie cleared, whatever the options say. -/
theorem c7_not_logged_in_frame (env : Env) (req : Request) (opts : AuthOptions)
    (h : userSuppliedAnyAuth req = false) :
    (authCheckHelper env req opts).1 = .failure 401 "notLoggedIn" "You must be logged in to view this data" ∧
    (authCheckHelper env req opts).2.loginFinds = [] ∧
    (authCheckHelper env req opts).2.csrfFinds = [] ∧
    (authCheckHelper env req opts).2.loginDeletes = [] ∧
    (authCheckHelper env req opts).2.csrfDeletes = [] ∧
    (authCheckHelper env req opts).2.clearedCookies = [] := by
  simp [authCheckHelper, h, noEffects]

/-- Witness for C7 at a concrete credential-free request, with the
clear-cookies-on-fail option set. -/
theorem c7_not_logged_in_frame_witness :
    userSuppliedAnyAuth reqNone = false ∧
    ((authCheckHelper env0 reqNone ⟨true, true⟩).1 = .failure 401 "notLoggedIn" "You must be logged in to view this data" ∧
     (authCheckHelper env0 reqNone ⟨true, true⟩).2.loginFinds = [] ∧
     (authCheckHelper env0 reqNone ⟨true, true⟩).2.csrfFinds = [] ∧
     (authCheckHelper env0 reqNone ⟨true, true⟩).2.loginDeletes = [] ∧
     (authCheckHelper env0 reqNone ⟨true, true⟩).2.csrfDeletes = [] ∧
     (authCheckHelper env0 reqNone ⟨true, true⟩).2.clearedCookies = []) :=
  ⟨by decide, c7_not_logged_in_frame env0 reqNone ⟨true, true⟩ (by decide)⟩

/-- C8: each deferred deletion schedules a 15-second (15000 ms) delay and
its timer body makes exactly one deletion attempt for the scheduled id,
resolving even when the store deletion throws (already-deleted id or
store error), for any environment, with no retry. -/
theorem c8_deferred_deletion_single_attempt (env : Env) (u : String) :
    (deleteLoginSessionSoon u).delayMilliseconds = 15 * 1000 ∧
    fireDeferredLoginDeletion env (deleteLoginSessionSoon u) = ([u], .ok ()) ∧
    (deleteCSRFSessionSoon u).delayMilliseconds = 15 * 1000 ∧
    fireDeferredCSRFDeletion env (deleteCSRFSessionSoon u) = ([u], .ok ()) := by
  refine ⟨rfl, ?_, rfl, ?_⟩
  · cases h : env.deleteLoginSession u <;>
      simp [fireDeferredLoginDeletion, deleteLoginSessionSoon, h]
  · cases h : env.deleteCSRFSession u <;>
      simp [fireDeferredCSRFDeletion, deleteCSRFSessionSoon, h]

/-- C4: once all three parts are presented and the token decodes to a
login session found in the store, a session whose expiry instant has
been reached (now ≥ expiresAt, equality included) yields the terminal
failure sessionExpired (401), whatever its `isCanceled` flag says: the
expiry check runs before the cancellation check. -/
theorem c4_expiry_before_cancellation (env : Env) (req : Request) (opts : AuthOptions)
    (u : String) (ls : LoginSession)
    (h1 : jsTruthy req.authJWTCookie = true)
    (h2 : jsTruthy req.authCSRFCookie = true)
    (h3 : jsTruthy req.authCSRFHeader = true)
    (h4 : env.verifyJWT (req.authJWTCookie.getD "") = some u)
    (h5 : env.findLoginSession u = .ok (some ls))
    (h6 : ls.expiresAt ≤ env.now) :
    (authCheckHelper env req opts).1 = .failure 401 "sessionExpired" "Login Session expired" := by
  simp [authCheckHelper, userSuppliedAnyAuth, onAuthFailure, h1, h2, h3, h4, h5, h6]

/-- Witness for C4: the concrete session expires exactly at the current
instant and has `isCanceled = false`, yet the outcome is sessionExpired. -/
theorem c4_expiry_before_cancellation_witness :
    jsTruthy reqFull.authJWTCookie = true ∧
    envExpiredNow.findLoginSession "ls1" = .ok (some ⟨"u1", false, 50⟩) ∧
    (50 : Nat) ≤ envExpiredNow.now ∧
    (authCheckHelper envExpiredNow reqFull ⟨true, true⟩).1 =
      .failure 401 "sessionExpired" "Login Session expired" :=
  ⟨by decide, by decide, by decide,
   c4_expiry_before_cancellation envExpiredNow reqFull ⟨true, true⟩ "ls1" ⟨"u1", false, 50⟩
     (by decide) (by decide) (by decide) (by decide) (by decide) (by decide)⟩

/-- C3: when the pipeline reaches the CSRF step, the CSRF session is
looked up by the header value, and an owner mismatch between the two
sessions — both existing and unexpired — yields the terminal failure
verification (401); the CSRF cookie's value plays no role: any other
truthy cookie value gives the same outcome. -/
theorem c3_csrf_lookup_by_header_owner_mismatch (env : Env) (req : Request)
    (opts : AuthOptions) (u : String) (ls : LoginSession) (cs : CSRFSession)
    (h1 : jsTruthy req.authJWTCookie = true)
    (h2 : jsTruthy req.authCSRFCookie = true)
    (h3 : jsTruthy req.authCSRFHeader = true)
    (h4 : env.verifyJWT (req.authJWTCookie.getD "") = some u)
    (h5 : env.findLoginSession u = .ok (some ls))
    (h6 : env.now < ls.expiresAt)
    (h7 : ls.isCanceled = false)
    (h8 : env.findCSRFSession (req.authCSRFHeader.getD "") = .ok (some cs))
    (h9 : env.now < cs.expiresAt)
    (h10 : cs.clientId ≠ ls.clientId) :
    (authCheckHelper env req opts).1 =
      .failure 401 "verification" "CSRF_AUTH header being used is not for the client that you claim to be" ∧
    (authCheckHelper env req opts).2.csrfFinds = [req.authCSRFHeader.getD ""] ∧
    (∀ c : Option String, jsTruthy c = true →
      (authCheckHelper env { req with authCSRFCookie := c } opts).1 =
        .failure 401 "verification" "CSRF_AUTH header being used is not for the client that you claim to be") := by
  have h6n : ¬ (ls.expiresAt ≤ env.now) := by omega
  have h9n : ¬ (cs.expiresAt ≤ env.now) := by omega
  have h10b : (cs.clientId == ls.clientId) = false := by
    simpa [beq_iff_eq] using h10
  refine ⟨?_, ?_, ?_⟩
  · simp [authCheckHelper, userSuppliedAnyAuth, onAuthFailure, h1, h2, h3, h4, h5, h6n, h7, h8, h9n, h10b]
  · simp [authCheckHelper, userSuppliedAnyAuth, onAuthFailure, h1, h2, h3, h4, h5, h6n, h7, h8, h9n, h10b]
  · intro c hc
    simp [authCheckHelper, userSuppliedAnyAuth, onAuthFailure, h1, hc, h3, h4, h5, h6n, h7, h8, h9n, h10b]

/-- Witness for C3: both sessions exist and are unexpired but belong to
different clients; the outcome is the verification failure and the store
was consulted with the header value. -/
theorem c3_csrf_lookup_by_header_owner_mismatch_witness :
    envWrongOwner.findCSRFSession "cs1" = .ok (some ⟨"cs1", "u2", 100⟩) ∧
    ((authCheckHelper envWrongOwner reqFull ⟨true, true⟩).1 =
       .failure 401 "verification" "CSRF_AUTH header being used is not for the client that you claim to be" ∧
     (authCheckHelper envWrongOwner reqFull ⟨true, true⟩).2.csrfFinds = ["cs1"] ∧
     (∀ c : Option String, jsTruthy c = true →
       (authCheckHelper envWrongOwner { reqFull with authCSRFCookie := c } ⟨true, true⟩).1 =
         .failure 401 "verification" "CSRF_AUTH header being used is not for the client that you claim to be")) :=
  ⟨by decide,
   by
    have h := c3_csrf_lookup_by_header_owner_mismatch envWrongOwner reqFull ⟨true, true⟩
      "ls1" sampleLoginSession ⟨"cs1", "u2", 100⟩
      (by decide) (by decide) (by decide) (by decide) (by decide) (by decide)
      (by decide) (by decide) (by decide) (by decide)
    simpa using h⟩

/-- C9: the gate's allowlist is exactly the five stated paths; a request
whose path is in it passes straight through (`next()` called, validator
never run, no store touched, no cookie set or cleared, no deletion
scheduled) for every environment; any other path runs the validator with
`sendResOnFail` and `deleteCookiesOnFail` both true. -/
theorem c9_gate_exempt_passthrough (env : Env) (req : Request) :
    exemptEndpoints = ["/", "/auth/register", "/auth/loggedInCheck", "/auth/login", "/auth/logout"] ∧
    (exemptEndpoints.contains req.path = true → authCheck env req = passThroughGate) ∧
    (exemptEndpoints.contains req.path = false →
      (authCheck env req).validatorRun =
        some (⟨true, true⟩, (authCheckHelper env req ⟨true, true⟩).2)) := by
  refine ⟨rfl, ?_, ?_⟩
  · intro h
    have hm : req.path ∈ exemptEndpoints := by simpa using h
    simp [authCheck, hm]
  · intro h
    have hm : req.path ∉ exemptEndpoints := by simpa using h
    cases hr : authCheckHelper env req ⟨true, true⟩ with
    | mk r eff =>
      cases r with
      | failure s t m => simp [authCheck, hm, hr]
      | success cid lsu csu =>
        cases hg : env.getClient cid with
        | error e => simp [authCheck, hm, hr, hg, gateAfterSuccessBase]
        | ok w =>
          cases w with
          | none => simp [authCheck, hm, hr, hg, gateAfterSuccessBase]
          | some user =>
            cases hc : createSessionAndSetCookies env user with
            | mk b cookies =>
              cases b <;> simp [authCheck, hm, hr, hg, hc, gateAfterSuccessBase]

/-- Witness for C9: the login path passes through untouched while an API
path runs the validator with both flags set. -/
theorem c9_gate_exempt_passthrough_witness :
    (exemptEndpoints.contains reqExempt.path = true ∧ authCheck env0 reqExempt = passThroughGate) ∧
    (exemptEndpoints.contains reqFull.path = false ∧
     (authCheck env0 reqFull).validatorRun =
       some (⟨true, true⟩, (authCheckHelper env0 reqFull ⟨true, true⟩).2)) :=
  ⟨⟨by decide, (c9_gate_exempt_passthrough env0 reqExempt).2.1 (by decide)⟩,
   ⟨by decide, (c9_gate_exempt_passthrough env0 reqFull).2.2 (by decide)⟩⟩

/-- C10: after a successful validation on a non-exempt path, the gate
looks the client up before minting new credentials; if no user is found
it responds 500 noUser, and if the lookup throws it responds 500
database; either way it does not call the next handler, the deferred
deletions of the old sessions are already scheduled, the cookies already
cleared, and no new cookies are set. -/
theorem c10_gate_no_user_after_success (env : Env) (req : Request)
    (cid lsu csu : String) (eff : Effects)
    (hne : exemptEndpoints.contains req.path = false)
    (hs : authCheckHelper env req ⟨true, true⟩ = (.success cid lsu csu, eff)) :
    (env.getClient cid = .ok none →
      (authCheck env req).response =
        some (500, "noUser", "Could not find user associated with the clientId tied to the session being updated") ∧
      (authCheck env req).nextCalled = false ∧
      (authCheck env req).scheduledLoginDeletes = [deleteLoginSessionSoon lsu] ∧
      (authCheck env req).scheduledCSRFDeletes = [deleteCSRFSessionSoon csu] ∧
      (authCheck env req).clearedCookies = ["auth_csrf", "auth_jwt"] ∧
      (authCheck env req).setCookies = []) ∧
    (env.getClient cid = .error () →
      (authCheck env req).response =
        some (500, "database", "Error querying database for user associated with the clientId tied to the session being updated") ∧
      (authCheck env req).nextCalled = false ∧
      (authCheck env req).scheduledLoginDeletes = [deleteLoginSessionSoon lsu] ∧
      (authCheck env req).scheduledCSRFDeletes = [deleteCSRFSessionSoon csu] ∧
      (authCheck env req).clearedCookies = ["auth_csrf", "auth_jwt"] ∧
      (authCheck env req).setCookies = []) := by
  have hm : req.path ∉ exemptEndpoints := by simpa using hne
  constructor
  · intro hg
    simp [authCheck, hm, hs, hg, gateAfterSuccessBase]
  · intro hg
    simp [authCheck, hm, hs, hg, gateAfterSuccessBase]

/-- Witness for C10 at the two concrete environments: user row missing,
and client lookup throwing. -/
theorem c10_gate_no_user_after_success_witness :
    ((authCheck envNoUser reqFull).response =
       some (500, "noUser", "Could not find user associated with the clientId tied to the session being updated") ∧
     (authCheck envNoUser reqFull).nextCalled = false ∧
     (authCheck envNoUser reqFull).scheduledLoginDeletes = [deleteLoginSessionSoon "ls1"] ∧
     (authCheck envNoUser reqFull).scheduledCSRFDeletes = [deleteCSRFSessionSoon "cs1"] ∧
     (authCheck envNoUser reqFull).clearedCookies = ["auth_csrf", "auth_jwt"] ∧
     (authCheck envNoUser reqFull).setCookies = []) ∧
    ((authCheck envClientErr reqFull).response =
       some (500, "database", "Error querying database for user associated with the clientId tied to the session being updated") ∧
     (authCheck envClientErr reqFull).nextCalled = false) :=
  ⟨(c10_gate_no_user_after_success envNoUser reqFull "u1" "ls1" "cs1"
      ⟨["ls1"], ["cs1"], [], [], [], []⟩ (by decide) (by decide)).1 (by decide),
   by
    have h := (c10_gate_no_user_after_success envClientErr reqFull "u1" "ls1" "cs1"
      ⟨["ls1"], ["cs1"], [], [], [], []⟩ (by decide) (by decide)).2 (by decide)
    exact ⟨h.1, h.2.1⟩⟩

/-- The outcome, response log, cookie log and the identities of the
deleted sessions produced by `onAuthFailure` do not depend on the two
delete procedures: a thrown store error during cleanup is caught inside
`onAuthFailure` and at most changes the success flag recorded next to the
attempted id. -/
lemma onAuthFailure_delete_invariance (env : Env) (d1 d2 : String → Except Unit Unit)
    (opts : AuthOptions) (ls cs : Option String) (prior : Effects)
    (st : Nat) (et em : String) :
    (onAuthFailure { env with deleteLoginSession := d1, deleteCSRFSession := d2 } opts ls cs prior st et em).1 =
      (onAuthFailure env opts ls cs prior st et em).1 ∧
    (onAuthFailure { env with deleteLoginSession := d1, deleteCSRFSession := d2 } opts ls cs prior st et em).2.responses =
      (onAuthFailure env opts ls cs prior st et em).2.responses ∧
    (onAuthFailure { env with deleteLoginSession := d1, deleteCSRFSession := d2 } opts ls cs prior st et em).2.clearedCookies =
      (onAuthFailure env opts ls cs prior st et em).2.clearedCookies ∧
    (onAuthFailure { env with deleteLoginSession := d1, deleteCSRFSession := d2 } opts ls cs prior st et em).2.loginDeletes.map Prod.fst =
      (onAuthFailure env opts ls cs prior st et em).2.loginDeletes.map Prod.fst ∧
    (onAuthFailure { env with deleteLoginSession := d1, deleteCSRFSession := d2 } opts ls cs prior st et em).2.csrfDeletes.map Prod.fst =
      (onAuthFailure env opts ls cs prior st et em).2.csrfDeletes.map Prod.fst := by
  cases hls : jsTruthy ls <;> cases hcs : jsTruthy cs <;>
    simp [onAuthFailure, hls, hcs]

/-- C6: cleanup is atomic with respect to the decided outcome — for any
request, swapping in arbitrary (in particular, always-throwing) delete
procedures changes neither the validator's returned outcome, nor the
response it sends, nor the cookies it clears, nor which sessions it tries
to delete; a cleanup store error never escapes `authCheckHelper`. -/
theorem c6_cleanup_error_does_not_change_outcome (env : Env)
    (d1 d2 : String → Except Unit Unit) (req : Request) (opts : AuthOptions) :
    (authCheckHelper { env with deleteLoginSession := d1, deleteCSRFSession := d2 } req opts).1 =
      (authCheckHelper env req opts).1 ∧
    (authCheckHelper { env with deleteLoginSession := d1, deleteCSRFSession := d2 } req opts).2.responses =
      (authCheckHelper env req opts).2.responses ∧
    (authCheckHelper { env with deleteLoginSession := d1, deleteCSRFSession := d2 } req opts).2.clearedCookies =
      (authCheckHelper env req opts).2.clearedCookies ∧
    (authCheckHelper { env with deleteLoginSession := d1, deleteCSRFSession := d2 } req opts).2.loginDeletes.map Prod.fst =
      (authCheckHelper env req opts).2.loginDeletes.map Prod.fst ∧
    (authCheckHelper { env with deleteLoginSession := d1, deleteCSRFSession := d2 } req opts).2.csrfDeletes.map Prod.fst =
      (authCheckHelper env req opts).2.csrfDeletes.map Prod.fst := by
  simp only [authCheckHelper]
  repeat' split
  all_goals
    first
      | exact onAuthFailure_delete_invariance env d1 d2 opts _ _ _ _ _ _
      | simp_all

/-- C5: on every terminal failure of a run that resolved a (non-empty)
login session UUID from a verified token — incompleteAuth included — that
login session is deleted immediately inside the failure handler, as the
single immediate deletion attempt of the run. -/
theorem c5_resolved_login_session_deleted_on_failure (env : Env) (req : Request)
    (opts : AuthOptions) (u : String)
    (h1 : resolvedLoginSessionUUID env req = some u)
    (h2 : u ≠ "")
    (h3 : (authCheckHelper env req opts).1.isSuccess = false) :
    (authCheckHelper env req opts).2.loginDeletes =
      [(u, exceptOk (env.deleteLoginSession u))] := by
  have hj : jsTruthy req.authJWTCookie = true := by
    by_contra hc
    rw [Bool.not_eq_true] at hc
    simp [resolvedLoginSessionUUID, hc] at h1
  have hv : env.verifyJWT (req.authJWTCookie.getD "") = some u := by
    simpa [resolvedLoginSessionUUID, hj] using h1
  have hsa : userSuppliedAnyAuth req = true := by simp [userSuppliedAnyAuth, hj]
  have hub : (u != "") = true := by simpa [bne_iff_ne] using h2
  revert h3
  simp only [authCheckHelper, hsa, hj, hv, Bool.true_eq_false, if_false, reduceIte]
  repeat' split
  all_goals intro h3
  all_goals
    first
      | (simp [onAuthFailure, jsTruthy, hub, noEffects]; done)
      | simp [AuthResult.isSuccess] at h3

/-- Witness for C5 at a concrete incompleteAuth failure: token present
and verifying, CSRF cookie missing; the named login session is deleted
immediately. -/
theorem c5_resolved_login_session_deleted_on_failure_witness :
    resolvedLoginSessionUUID env0 reqNoCsrfCookie = some "ls1" ∧
    (authCheckHelper env0 reqNoCsrfCookie ⟨true, true⟩).1.isSuccess = false ∧
    (authCheckHelper env0 reqNoCsrfCookie ⟨true, true⟩).2.loginDeletes =
      [("ls1", exceptOk (env0.deleteLoginSession "ls1"))] :=
  ⟨by decide, by decide,
   c5_resolved_login_session_deleted_on_failure env0 reqNoCsrfCookie ⟨true, true⟩ "ls1"
     (by decide) (by decide) (by decide)⟩

/-- Counterexample to C2 as stated: a request presenting exactly one of
the three parts — a malformed token — is decided as `verification`, not
`incompleteAuth`: token verification runs before the completeness check. -/
theorem c2_rule_order_counterexample :
    (1 ≤ presentedPartsCount reqBadToken ∧ presentedPartsCount reqBadToken < 3) ∧
    (authCheckHelper env0 reqBadToken ⟨true, true⟩).1 =
      .failure 401 "verification" "AUTH_JWT cookie could not be verified" ∧
    (authCheckHelper env0 reqBadToken ⟨true, true⟩).1 ≠
      .failure 401 "incompleteAuth" (incompleteAuthMessage (missingAuthParts reqBadToken)) :=
  ⟨⟨by decide, by decide⟩, by decide, by decide⟩

/-- C2 as amended: with at least one but not all three parts presented,
the outcome is incompleteAuth (401) with the message enumerating the
missing parts — except that when a token cookie is present and fails
verification the outcome is the earlier `verification` failure, because
the token is decoded before the completeness check. -/
theorem c2_partial_credentials_outcome (env : Env) (req : Request) (opts : AuthOptions)
    (hge : 1 ≤ presentedPartsCount req) (hlt : presentedPartsCount req < 3) :
    (jsTruthy req.authJWTCookie = false →
       (authCheckHelper env req opts).1 =
         .failure 401 "incompleteAuth" (incompleteAuthMessage (missingAuthParts req))) ∧
    (jsTruthy req.authJWTCookie = true →
       env.verifyJWT (req.authJWTCookie.getD "") = none →
       (authCheckHelper env req opts).1 =
         .failure 401 "verification" "AUTH_JWT cookie could not be verified") ∧
    (∀ u : String, env.verifyJWT (req.authJWTCookie.getD "") = some u →
       (authCheckHelper env req opts).1 =
         .failure 401 "incompleteAuth" (incompleteAuthMessage (missingAuthParts req))) := by
  cases hj : jsTruthy req.authJWTCookie <;>
    cases hc : jsTruthy req.authCSRFCookie <;>
    cases hh : jsTruthy req.authCSRFHeader <;>
    refine ⟨fun hjf => ?_, fun hjt hn => ?_, fun u hu => ?_⟩ <;>
    simp_all [authCheckHelper, userSuppliedAnyAuth, onAuthFailure, presentedPartsCount]

/-- Witness for the amended C2: token present and verifying, CSRF cookie
missing — the outcome is incompleteAuth naming the missing cookie. -/
theorem c2_partial_credentials_outcome_witness :
    (1 ≤ presentedPartsCount reqNoCsrfCookie ∧ presentedPartsCount reqNoCsrfCookie < 3) ∧
    (authCheckHelper env0 reqNoCsrfCookie ⟨true, true⟩).1 =
      .failure 401 "incompleteAuth" (incompleteAuthMessage (missingAuthParts reqNoCsrfCookie)) :=
  ⟨⟨by decide, by decide⟩,
   (c2_partial_credentials_outcome env0 reqNoCsrfCookie ⟨true, true⟩
      (by decide) (by decide)).2.2 "ls1" (by decide)⟩

/-- Counterexample to C1 as stated: both store-side conditions of the
spec invariant hold (verified token naming a live login session, header
naming a live CSRF session with the same owner), yet with the CSRF
cookie absent the validator does not return a success result. -/
theorem c1_invariant_counterexample :
    specAuthenticated env0 reqNoCsrfCookie = true ∧
    (authCheckHelper env0 reqNoCsrfCookie ⟨true, true⟩).1.isSuccess = false :=
  ⟨by decide, by decide⟩

/-- C1 as amended: the validator returns a success result exactly when
the spec invariant holds (token verifies and names an existing,
unexpired, uncanceled LoginSession; the header names an existing,
unexpired CSRFSession with the same owner) AND the CSRF cookie is also
presented (non-empty), for every environment, request and option pair. -/
theorem c1_success_iff_spec_invariant_and_csrf_cookie (env : Env) (req : Request)
    (opts : AuthOptions) :
    (authCheckHelper env req opts).1.isSuccess =
      (specAuthenticated env req && jsTruthy req.authCSRFCookie) := by
  cases hj : jsTruthy req.authJWTCookie
  case false =>
    have hs : specAuthenticated env req = false := by
      rcases (jsTruthy_false_iff req.authJWTCookie).mp hj with h | h <;>
        simp [specAuthenticated, h]
    rw [hs, Bool.false_and]
    cases hsa : userSuppliedAnyAuth req
    case false => simp [authCheckHelper, hsa, AuthResult.isSuccess]
    case true => simp [authCheckHelper, hsa, hj, AuthResult.isSuccess, onAuthFailure]
  case true =>
    obtain ⟨t, ht, htne⟩ := (jsTruthy_true_iff req.authJWTCookie).mp hj
    have hjt2 : jsTruthy (some t) = true := by simpa [jsTruthy] using htne
    have hsa : userSuppliedAnyAuth req = true := by simp [userSuppliedAnyAuth, hj]
    have hgd : req.authJWTCookie.getD "" = t := by simp [ht]
    have htb : (t == "") = false := by simpa using htne
    cases hv : env.verifyJWT t
    case none =>
      have hs : specAuthenticated env req = false := by
        simp [specAuthenticated, ht, htb, hv]
      simp [authCheckHelper, hsa, hj, hgd, hv, hs, AuthResult.isSuccess, onAuthFailure]
    case some u =>
      cases hcc : jsTruthy req.authCSRFCookie
      case false =>
        rw [Bool.and_false]
        simp [authCheckHelper, hsa, hj, hgd, hv, hcc, AuthResult.isSuccess, onAuthFailure]
      case true =>
        rw [Bool.and_true]
        cases hch : jsTruthy req.authCSRFHeader
        case false =>
          have hs : specAuthenticated env req = false := by
            rcases (jsTruthy_false_iff req.authCSRFHeader).mp hch with h | h <;>
              · simp only [specAuthenticated, ht, htb, hv]
                cases hfl : env.findLoginSession u with
                | error e => simp
                | ok w =>
                  cases w with
                  | none => simp
                  | some ls => simp [h]
          rw [hs]
          simp [authCheckHelper, hsa, hj, hgd, hv, hcc, hch, AuthResult.isSuccess, onAuthFailure]
        case true =>
          obtain ⟨hd, hhd, hhdne⟩ := (jsTruthy_true_iff req.authCSRFHeader).mp hch
          have hhd2 : jsTruthy (some hd) = true := by simpa [jsTruthy] using hhdne
          have hgdh : req.authCSRFHeader.getD "" = hd := by simp [hhd]
          have hhdb : (hd == "") = false := by simpa using hhdne
          cases hfl : env.findLoginSession u
          case error e =>
            simp [authCheckHelper, specAuthenticated, hjt2, hhd2, hsa, hj, hgd, hv, hcc, hch, hfl,
              ht, htb, AuthResult.isSuccess, onAuthFailure]
          case ok w =>
            cases w
            case none =>
              simp [authCheckHelper, specAuthenticated, hjt2, hhd2, hsa, hj, hgd, hv, hcc, hch, hfl,
                ht, htb, AuthResult.isSuccess, onAuthFailure]
            case some ls =>
              by_cases hle : ls.expiresAt ≤ env.now
              case pos =>
                have hnlt : ¬ env.now < ls.expiresAt := by omega
                simp [authCheckHelper, specAuthenticated, hjt2, hhd2, hsa, hj, hgd, hv, hcc, hch, hfl,
                  ht, htb, hle, hnlt, AuthResult.isSuccess, onAuthFailure]
              case neg =>
                have hlt : env.now < ls.expiresAt := by omega
                cases hcanc : ls.isCanceled
                case true =>
                  simp [authCheckHelper, specAuthenticated, hjt2, hhd2, hsa, hj, hgd, hv, hcc, hch, hfl,
                    ht, htb, hle, hlt, hcanc, AuthResult.isSuccess, onAuthFailure]
                case false =>
                  cases hfc : env.findCSRFSession hd
                  case error e =>
                    simp [authCheckHelper, specAuthenticated, hjt2, hhd2, hsa, hj, hgd, hv, hcc, hch, hfl,
                      ht, htb, hhd, hhdb, hgdh, hle, hlt, hcanc, hfc,
                      AuthResult.isSuccess, onAuthFailure]
                  case ok w2 =>
                    cases w2
                    case none =>
                      simp [authCheckHelper, specAuthenticated, hjt2, hhd2, hsa, hj, hgd, hv, hcc, hch, hfl,
                        ht, htb, hhd, hhdb, hgdh, hle, hlt, hcanc, hfc,
                        AuthResult.isSuccess, onAuthFailure]
                    case some cs =>
                      by_cases hle2 : cs.expiresAt ≤ env.now
                      case pos =>
                        have hnlt2 : ¬ env.now < cs.expiresAt := by omega
                        simp [authCheckHelper, specAuthenticated, hjt2, hhd2, hsa, hj, hgd, hv, hcc, hch, hfl,
                          ht, htb, hhd, hhdb, hgdh, hle, hlt, hcanc, hfc, hle2, hnlt2,
                          AuthResult.isSuccess, onAuthFailure]
                      case neg =>
                        have hlt2 : env.now < cs.expiresAt := by omega
                        cases hcl : cs.clientId == ls.clientId <;>
                          simp [authCheckHelper, specAuthenticated, hjt2, hhd2, hsa, hj, hgd, hv, hcc, hch, hfl,
                            ht, htb, hhd, hhdb, hgdh, hle, hlt, hcanc, hfc, hle2, hlt2, hcl,
                            AuthResult.isSuccess, onAuthFailure]

end InventoryAuth
